import Mathlib

/-!
Verification of the store-locator backend (`src/main.go`): a shallow
embedding of its request-handling pipeline (parameter parsing, the fixed
PostGIS query, the response envelope and headers) together with theorems
checking the specification's claims against it.

The embedding models:
* `strconv.ParseFloat`/`strconv.Atoi` (the Go standard-library parsers the
  handler relies on) at the level of accepted syntax and error kind; a
  finite float value is kept exactly as `±mant·2^e2·5^e5` instead of a
  rounded IEEE-754 double, and the only rounding effect that changes
  control flow — overflow to ±Inf, which `ParseFloat` reports as a range
  error — is modelled by the exact round-to-infinity threshold.
* `net/http`'s `Error` helper (which overwrites the Content-Type header
  with `text/plain; charset=utf-8`, adds `X-Content-Type-Options: nosniff`
  and appends a newline to the message) and header canonicalization.
* `fmt.Fprintf` called with a format string and no arguments, as on the
  handler's success path: text is copied verbatim, `%%` collapses to `%`,
  and every other directive is rendered as a missing-argument diagnostic.
* the SQL query's semantics over an abstract table: a row set with an
  abstract geodesic-distance function, filtered by `ST_DWithin`
  (distance ≤ radius), ordered by `distance_km`, limited to 25 rows and
  aggregated by `jsonb_agg` with `COALESCE(..., '[]'::jsonb)`.
-/

namespace StoreLocator

/-- Lower-case an ASCII letter, as Go's `lower(c) = c | 0x20` does on the
letter ranges; other characters are returned unchanged. -/
def asciiLower (c : Char) : Char :=
  if 'A' ≤ c ∧ c ≤ 'Z' then Char.ofNat (c.toNat + 32) else c

/-- Upper-case an ASCII letter; other characters are returned unchanged. -/
def asciiUpper (c : Char) : Char :=
  if 'a' ≤ c ∧ c ≤ 'z' then Char.ofNat (c.toNat - 32) else c

/-- The error kinds of Go's `strconv` number parsers (`ErrSyntax` and
`ErrRange` inside a `*NumError`). -/
inductive ParseErr where
  | synErr
  | rangeErr
deriving DecidableEq

/-- The message `strconv` attaches to each error kind. -/
def ParseErr.goMessage : ParseErr → String
  | .synErr => "invalid syntax"
  | .rangeErr => "value out of range"

/-- The result of `strconv.ParseFloat(s, 64)`. A finite value is kept
exactly: `finite neg m e2 e5` stands for `(-1)^neg · m · 2^e2 · 5^e5`
(a decimal literal `m·10^e` has `e2 = e5 = e`, a hexadecimal literal
`m·2^p` has `e5 = 0`). Rounding to an IEEE-754 double is not modelled;
the overflow threshold, which decides between a value and a range error,
is (see `goFloatOverflows`). -/
inductive GoFloat where
  | nan
  | inf (neg : Bool)
  | finite (neg : Bool) (mant : ℕ) (exp2 : ℤ) (exp5 : ℤ)
deriving DecidableEq

/-- Decide `m·2^x·5^y ≥ n·2^u·5^v` for natural `m, n` and integer
exponents, by clearing denominators into ℕ arithmetic. -/
def scaledGE (m : ℕ) (x y : ℤ) (n : ℕ) (u v : ℤ) : Bool :=
  decide (m * 2 ^ (x - u).toNat * 5 ^ (y - v).toNat ≥
          n * 2 ^ (u - x).toNat * 5 ^ (v - y).toNat)

/-- `ParseFloat` overflows (returns ±Inf and `ErrRange`) exactly when the
read value is at least `(2^54 - 1)·2^970`, the round-to-nearest-even
boundary above the largest finite float64 `(2^53 - 1)·2^971`. -/
def goFloatOverflows (m : ℕ) (e2 e5 : ℤ) : Bool :=
  scaledGE m e2 e5 (2 ^ 54 - 1) 970 0

/-- The value of a mantissa or exponent digit; hexadecimal letters are
admitted only for hex literals. -/
def goDigitVal (hex : Bool) (c : Char) : Option ℕ :=
  if c.isDigit then some (c.toNat - 48)
  else if hex ∧ 'a' ≤ asciiLower c ∧ asciiLower c ≤ 'f' then
    some ((asciiLower c).toNat - 87)
  else none

/-- State of `underscoreOK`'s scan: the class of the previous character
(`'^'` start, `'0'` digit or base prefix, `'_'` underscore, `'!'` other),
exactly as in Go's `strconv.underscoreOK`. -/
def underscoreOKAux (hex : Bool) : Char → List Char → Bool
  | saw, [] => saw != '_'
  | saw, c :: cs =>
    if (goDigitVal hex c).isSome then underscoreOKAux hex '0' cs
    else if c == '_' then saw == '0' && underscoreOKAux hex '_' cs
    else saw != '_' && underscoreOKAux hex '!' cs

/-- Go's `strconv.underscoreOK`: underscores may appear only between
digits, or between a base prefix and a digit. -/
def underscoreOK (cs : List Char) : Bool :=
  let cs1 := match cs with
    | c :: rest => if c == '+' || c == '-' then rest else cs
    | [] => cs
  match cs1 with
  | '0' :: x :: rest =>
    if asciiLower x == 'b' || asciiLower x == 'o' || asciiLower x == 'x' then
      underscoreOKAux (asciiLower x == 'x') '0' rest
    else underscoreOKAux false '^' cs1
  | _ => underscoreOKAux false '^' cs1

/-- Accumulator for reading a mantissa: digits seen so far, number of
digits after the decimal point, and whether a digit / a dot was seen. -/
structure MantissaAcc where
  mant : ℕ
  fracDigits : ℕ
  sawDigits : Bool
  sawDot : Bool

/-- Read the mantissa part of a float literal, as in `strconv.readFloat`:
digits accumulate, underscores are skipped (their placement is checked
separately by `underscoreOK`), a second decimal point or any other
character stops the scan and is left in the remainder. -/
def readMantissa (hex : Bool) : List Char → MantissaAcc → MantissaAcc × List Char
  | [], acc => (acc, [])
  | c :: cs, acc =>
    if c == '_' then readMantissa hex cs acc
    else if c == '.' then
      if acc.sawDot then (acc, c :: cs)
      else readMantissa hex cs { acc with sawDot := true }
    else
      match goDigitVal hex c with
      | some d => readMantissa hex cs
          { mant := acc.mant * (if hex then 16 else 10) + d
            fracDigits := acc.fracDigits + (if acc.sawDot then 1 else 0)
            sawDigits := true
            sawDot := acc.sawDot }
      | none => (acc, c :: cs)

/-- Read exponent digits up to the end of the string (underscores are
skipped); fails when no digit is present or a non-digit remains, as
`ParseFloat` rejects any trailing characters. -/
def readExpDigits : List Char → ℕ → Bool → Option ℕ
  | [], acc, saw => if saw then some acc else none
  | c :: cs, acc, saw =>
    if c == '_' then readExpDigits cs acc saw
    else if c.isDigit then readExpDigits cs (acc * 10 + (c.toNat - 48)) true
    else none

/-- Read a signed exponent that must extend to the end of the string. -/
def readExp (cs : List Char) : Option ℤ :=
  match cs with
  | '+' :: r => (readExpDigits r 0 false).map (fun n => (n : ℤ))
  | '-' :: r => (readExpDigits r 0 false).map (fun n => -(n : ℤ))
  | r => (readExpDigits r 0 false).map (fun n => (n : ℤ))

/-- Read an unsigned decimal float: mantissa, then an optional `e`/`E`
exponent consuming the rest of the string. Returns the pair
`(mant, pow10)` with value `mant · 10^pow10`. -/
def decCore (cs : List Char) : Option (ℕ × ℤ) :=
  let (acc, rest) := readMantissa false cs ⟨0, 0, false, false⟩
  if !acc.sawDigits then none
  else
    match rest with
    | [] => some (acc.mant, -(acc.fracDigits : ℤ))
    | e :: r =>
      if asciiLower e == 'e' then
        (readExp r).map (fun ex => (acc.mant, ex - (acc.fracDigits : ℤ)))
      else none

/-- Read an unsigned hexadecimal float (after the `0x` prefix): hex
mantissa, then a mandatory `p`/`P` power-of-two exponent. Returns
`(mant, pow2)` with value `mant · 2^pow2`. -/
def hexCore (cs : List Char) : Option (ℕ × ℤ) :=
  let (acc, rest) := readMantissa true cs ⟨0, 0, false, false⟩
  if !acc.sawDigits then none
  else
    match rest with
    | [] => none
    | p :: r =>
      if asciiLower p == 'p' then
        (readExp r).map (fun ex => (acc.mant, ex - 4 * (acc.fracDigits : ℤ)))
      else none

/-- Go's `strconv.special`: after an optional sign, the case-insensitive
words `inf` and `infinity` (and, only when unsigned, `nan`) parse as the
special float values. -/
def parseSpecial (cs : List Char) : Option GoFloat :=
  match cs with
  | [] => none
  | c :: rest =>
    if c == '+' || c == '-' then
      let l := rest.map asciiLower
      if l == "inf".toList || l == "infinity".toList then some (.inf (c == '-'))
      else none
    else
      let l := cs.map asciiLower
      if l == "inf".toList || l == "infinity".toList then some (.inf false)
      else if l == "nan".toList then some .nan
      else none

/-- Read a finite float literal: underscore placement check, optional
sign, then the decimal or (after `0x`) hexadecimal form. Returns
`(neg, mant, e2, e5)` standing for `(-1)^neg · mant · 2^e2 · 5^e5`. -/
def readFloatRep (cs : List Char) : Option (Bool × ℕ × ℤ × ℤ) :=
  if cs.contains '_' && !underscoreOK cs then none
  else
    let (neg, cs1) := match cs with
      | '+' :: r => (false, r)
      | '-' :: r => (true, r)
      | _ => (false, cs)
    match cs1 with
    | '0' :: x :: r =>
      if asciiLower x == 'x' then (hexCore r).map (fun p => (neg, p.1, p.2, 0))
      else (decCore cs1).map (fun p => (neg, p.1, p.2, p.2))
    | _ => (decCore cs1).map (fun p => (neg, p.1, p.2, p.2))

/-- `strconv.ParseFloat(s, 64)` as the handler consumes it: a special or
finite value on success, `ErrSyntax` for malformed input, `ErrRange` when
the finite value overflows float64 (Go then returns ±Inf together with
the error, and the handler treats any error as failure). -/
def goParseFloat (s : String) : Except ParseErr GoFloat :=
  match parseSpecial s.toList with
  | some g => .ok g
  | none =>
    match readFloatRep s.toList with
    | none => .error .synErr
    | some (neg, m, e2, e5) =>
      if goFloatOverflows m e2 e5 then .error .rangeErr
      else .ok (.finite neg m e2 e5)

/-- `strconv.Atoi` (= `ParseInt(s, 10, 0)` with 64-bit int): an optional
sign followed by at least one decimal digit and nothing else; values
outside `[-2^63, 2^63 - 1]` are a range error. -/
def goAtoi (s : String) : Except ParseErr Int :=
  match s.toList with
  | [] => .error .synErr
  | cs =>
    let (neg, ds) := match cs with
      | '+' :: r => (false, r)
      | '-' :: r => (true, r)
      | _ => (false, cs)
    if ds.isEmpty || !ds.all Char.isDigit then .error .synErr
    else
      let n : ℕ := ds.foldl (fun a c => a * 10 + (c.toNat - 48)) 0
      if neg then
        if n > 2 ^ 63 then .error .rangeErr else .ok (-(n : ℤ))
      else
        if n ≥ 2 ^ 63 then .error .rangeErr else .ok (n : ℤ)

/-- The fixed backing table (`const tableName` in `getGeoJSONFromDatabase`). -/
def tableName : String := "austinrecycling"

/-- The SQL template of `getGeoJSONFromDatabase` (its `fmt.Sprintf` raw
string, with `%v` replaced by the table argument): filter by `ST_DWithin`
against the `$1`/`$2` point and `$3` radius, order by the computed
`distance_km`, limit 25, build one GeoJSON feature per row and aggregate
with `COALESCE(jsonb_agg(...), '[]'::jsonb)`. -/
def spatialQueryTemplate (tbl : String) : String :=
  "SELECT COALESCE(jsonb_agg(t.feature), '[]'::jsonb)\n"
  ++ "\t\tFROM (\n"
  ++ "\t\t\tSELECT jsonb_build_object(\n"
  ++ "\t\t\t\t'type', 'Feature',\n"
  ++ "\t\t\t\t'geometry', ST_AsGeoJSON(wkb_geometry)::jsonb,\n"
  ++ "\t\t\t\t'properties', to_jsonb(row) - 'ogc_fid' - 'wkb_geometry'\n"
  ++ "\t\t\t) AS feature\n"
  ++ "\t\t\tFROM (\n"
  ++ "\t\t\t\tSELECT *, \n"
  ++ "\t\t\t\t\t-- Calculate distance in KM\n"
  ++ "\t\t\t\t\tST_Distance(\n"
  ++ "\t\t\t\t\t\tST_GEOGFromWKB(wkb_geometry), \n"
  ++ "\t\t\t\t\t\tST_SetSRID(ST_MakePoint($1, $2), 4326)::geography \n"
  ++ "\t\t\t\t\t) / 1000 AS distance_km\n"
  ++ "\t\t\t\tFROM " ++ tbl ++ "\n"
  ++ "\t\t\t\tWHERE ST_DWithin(\n"
  ++ "\t\t\t\t\tST_GEOGFromWKB(wkb_geometry), \n"
  ++ "\t\t\t\t\tST_SetSRID(ST_MakePoint($1, $2), 4326)::geography, \n"
  ++ "\t\t\t\t\t$3 -- Radius in meters\n"
  ++ "\t\t\t\t)\n"
  ++ "\t\t\t\tORDER BY distance_km\n"
  ++ "\t\t\t\tLIMIT 25\n"
  ++ "\t\t\t) row\n"
  ++ "\t\t) t;\n"
  ++ "\t\t"

/-- The query text the handler sends: the template applied to the
compile-time constant table name. It does not depend on the request. -/
def queryStr : String := spatialQueryTemplate tableName

/-- A bind value handed to `db.QueryRow` after the query text. -/
inductive BindValue where
  | float (v : GoFloat)
  | int (v : Int)
deriving DecidableEq

/-- Outcome of `row.Scan(&featureCollection)` on the single-row query:
a scanned payload string, `sql.ErrNoRows`, or any other scan error. -/
inductive ScanOutcome where
  | row (payload : String)
  | errNoRows
  | scanErr (msg : String)
deriving DecidableEq

/-- The database as the handler sees it: a function from the query text
and its ordered bind values to the scan outcome. -/
abbrev DBOracle := String → List BindValue → ScanOutcome

/-- A lower-case hexadecimal digit, as `strconv`'s quoting uses. -/
def hexDigitChar (n : ℕ) : Char :=
  if n < 10 then Char.ofNat (48 + n) else Char.ofNat (87 + n)

/-- One character of `strconv.Quote`: ASCII-exact (the common escapes,
printable ASCII verbatim, `\x` for other bytes); non-ASCII runes, which
Go prints verbatim when printable, are always `\u`/`\U`-escaped here —
the divergence touches only error-message text no claim inspects. -/
def goQuoteChar (c : Char) : String :=
  let n := c.toNat
  if c == '"' then "\\\""
  else if c == '\\' then "\\\\"
  else if n == 7 then "\\a"
  else if n == 8 then "\\b"
  else if n == 12 then "\\f"
  else if n == 10 then "\\n"
  else if n == 13 then "\\r"
  else if n == 9 then "\\t"
  else if n == 11 then "\\v"
  else if 32 ≤ n ∧ n < 127 then String.singleton c
  else if n < 256 then
    "\\x" ++ String.mk [hexDigitChar (n / 16), hexDigitChar (n % 16)]
  else if n < 65536 then
    "\\u" ++ String.mk [hexDigitChar (n / 4096 % 16), hexDigitChar (n / 256 % 16),
                        hexDigitChar (n / 16 % 16), hexDigitChar (n % 16)]
  else
    "\\U" ++ String.mk [hexDigitChar (n / 16 ^ 7 % 16), hexDigitChar (n / 16 ^ 6 % 16),
                        hexDigitChar (n / 16 ^ 5 % 16), hexDigitChar (n / 16 ^ 4 % 16),
                        hexDigitChar (n / 4096 % 16), hexDigitChar (n / 256 % 16),
                        hexDigitChar (n / 16 % 16), hexDigitChar (n % 16)]

/-- `strconv.Quote` as used inside `NumError.Error`. -/
def goQuote (s : String) : String :=
  "\"" ++ String.join (s.toList.map goQuoteChar) ++ "\""

/-- `(*NumError).Error()`: `strconv.<Func>: parsing <quoted>: <err>`. -/
def numErrorMessage (fn s : String) (e : ParseErr) : String :=
  "strconv." ++ fn ++ ": parsing " ++ goQuote s ++ ": " ++ e.goMessage

/-- The errors `getGeoJSONFromDatabase` can return: the three wrapped
parse failures (`fmt.Errorf("invalid ...: %w", err)`) and a scan
failure (`fmt.Errorf("error scanning row: %w", err)`). -/
inductive QueryError where
  | invalidLatitude (s : String) (e : ParseErr)
  | invalidLongitude (s : String) (e : ParseErr)
  | invalidRadius (s : String) (e : ParseErr)
  | scanError (msg : String)
deriving DecidableEq

/-- The `Error()` text of each `QueryError`, as `%s`/`%w` renders it. -/
def QueryError.message : QueryError → String
  | .invalidLatitude s e => "invalid latitude: " ++ numErrorMessage "ParseFloat" s e
  | .invalidLongitude s e => "invalid longitude: " ++ numErrorMessage "ParseFloat" s e
  | .invalidRadius s e => "invalid radius: " ++ numErrorMessage "Atoi" s e
  | .scanError m => "error scanning row: " ++ m

/-- Lines 131-143 of `main.go`: parse latitude and longitude with
`strconv.ParseFloat` and the radius with `strconv.Atoi`, failing with the
wrapped error of the first parameter that does not parse. No range or
sanity check is applied to the parsed values. -/
def parseSearchParams (centerLatStr centerLngStr radiusMetersStr : String) :
    Except QueryError (GoFloat × GoFloat × Int) :=
  match goParseFloat centerLatStr with
  | .error e => .error (.invalidLatitude centerLatStr e)
  | .ok centerLat =>
    match goParseFloat centerLngStr with
    | .error e => .error (.invalidLongitude centerLngStr e)
    | .ok centerLng =>
      match goAtoi radiusMetersStr with
      | .error e => .error (.invalidRadius radiusMetersStr e)
      | .ok radiusMeters => .ok (centerLat, centerLng, radiusMeters)

/-- The single database call a request triggers, when it triggers one:
`db.QueryRow(queryStr, centerLng, centerLat, radiusMeters)` — the fixed
query text plus the three bind values in the order longitude, latitude,
radius. `none` when parsing fails and the database is never contacted. -/
def queryCall (centerLatStr centerLngStr radiusMetersStr : String) :
    Option (String × List BindValue) :=
  match parseSearchParams centerLatStr centerLngStr radiusMetersStr with
  | .error _ => none
  | .ok (centerLat, centerLng, radiusMeters) =>
    some (queryStr, [.float centerLng, .float centerLat, .int radiusMeters])

/-- `getGeoJSONFromDatabase`: parse the three parameters, run the fixed
query, and translate the scan outcome — `sql.ErrNoRows` becomes the empty
GeoJSON array `"[]"`, any other scan error is wrapped and propagated. -/
def getGeoJSONFromDatabase (dbq : DBOracle)
    (centerLatStr centerLngStr radiusMetersStr : String) :
    Except QueryError String :=
  match parseSearchParams centerLatStr centerLngStr radiusMetersStr with
  | .error e => .error e
  | .ok (centerLat, centerLng, radiusMeters) =>
    match dbq queryStr [.float centerLng, .float centerLat, .int radiusMeters] with
    | .errNoRows => .ok "[]"
    | .scanErr m => .error (.scanError m)
    | .row featureCollection => .ok featureCollection

/-- One step of `textproto.CanonicalMIMEHeaderKey`: upper-case the first
letter and each letter after a hyphen, lower-case the rest. -/
def canonAux : Bool → List Char → List Char
  | _, [] => []
  | upper, c :: cs => (if upper then asciiUpper c else asciiLower c) :: canonAux (c == '-') cs

/-- Header-key canonicalization performed by `net/http`'s `Header.Set` and
`Header.Get` (so the source's `"Content-type"` is stored as
`"Content-Type"`). -/
def canonicalKey (s : String) : String := String.mk (canonAux true s.toList)

/-- `Header.Set`: replace the canonical key's value, or append it. -/
def headerSet (hs : List (String × String)) (k v : String) : List (String × String) :=
  let ck := canonicalKey k
  if hs.any (fun p => p.1 == ck) then hs.map (fun p => if p.1 == ck then (ck, v) else p)
  else hs ++ [(ck, v)]

/-- `Header.Get`: the value stored under the canonical key, if any. -/
def headerGet (hs : List (String × String)) (k : String) : Option String :=
  (hs.find? (fun p => p.1 == canonicalKey k)).map Prod.snd

/-- An HTTP response as the handler produces it: status code, response
headers, and the written body. -/
structure HttpResponse where
  status : ℕ
  headers : List (String × String)
  body : String
deriving DecidableEq

/-- `net/http`'s `Error` helper: it overwrites Content-Type with
`text/plain; charset=utf-8`, adds `X-Content-Type-Options: nosniff`,
writes the status code and prints the message with a trailing newline
(`fmt.Fprintln`). The Content-Length deletion is a no-op here because the
handler never sets it. -/
def httpError (hs : List (String × String)) (msg : String) (code : ℕ) : HttpResponse :=
  let hs1 := headerSet hs "Content-Type" "text/plain; charset=utf-8"
  let hs2 := headerSet hs1 "X-Content-Type-Options" "nosniff"
  { status := code, headers := hs2, body := msg ++ "\n" }

/-- A flag character of an `fmt` directive. -/
def isFmtFlag (c : Char) : Bool :=
  c == '#' || c == '0' || c == '+' || c == '-' || c == ' '

/-- Position inside an `fmt` directive after the `%`: among the flags, the
width digits, or the precision digits. -/
inductive FmtPos where
  | flagsPos
  | widthPos
  | precPos

/-- `fmt.Fprintf` applied, as on the handler's success path, to a format
string with no argument list: ordinary characters are copied, `%%` prints
one percent sign, a directive cut off by the end of the format prints
`%!(NOVERB)`, and every other directive consumes its flags, width and
precision and prints the missing-argument diagnostic `%!<verb>(MISSING)`
in its place. -/
def fprintfRender : Option FmtPos → List Char → List Char
  | none, [] => []
  | none, c :: cs =>
    if c == '%' then fprintfRender (some .flagsPos) cs
    else c :: fprintfRender none cs
  | some _, [] => "%!(NOVERB)".toList
  | some st, c :: cs =>
    match st with
    | .flagsPos =>
      if isFmtFlag c then fprintfRender (some .flagsPos) cs
      else if c.isDigit then fprintfRender (some .widthPos) cs
      else if c == '.' then fprintfRender (some .precPos) cs
      else if c == '%' then '%' :: fprintfRender none cs
      else '%' :: '!' :: c :: ("(MISSING)".toList ++ fprintfRender none cs)
    | .widthPos =>
      if c.isDigit then fprintfRender (some .widthPos) cs
      else if c == '.' then fprintfRender (some .precPos) cs
      else if c == '%' then '%' :: fprintfRender none cs
      else '%' :: '!' :: c :: ("(MISSING)".toList ++ fprintfRender none cs)
    | .precPos =>
      if c.isDigit then fprintfRender (some .precPos) cs
      else if c == '%' then '%' :: fprintfRender none cs
      else '%' :: '!' :: c :: ("(MISSING)".toList ++ fprintfRender none cs)

/-- The body `fmt.Fprintf(w, finalResponse)` writes for `finalResponse`. -/
def fprintfNoArgs (s : String) : String := String.mk (fprintfRender none s.toList)

/-- Whether a string contains a percent sign (and is therefore rewritten
by `fprintfNoArgs`). -/
def hasPercent (s : String) : Bool := s.toList.contains '%'

/-- The 400 body of line 111: `{"error": "Missing latitude or longitude
parameter"}`. -/
def missingParamBody : String :=
  "\x7b\"error\": \"Missing latitude or longitude parameter\"\x7d"

/-- The 500 body of lines 117-118: the `{"status": "error", ...}` envelope
around the wrapped query error. -/
def serverErrorBody (msg : String) : String :=
  "\x7b\"status\": \"error\", \"error\": \"Internal server error during query: "
  ++ msg ++ "\"\x7d"

/-- The success envelope of line 123: `{"status": "ok", "features": <payload>}`. -/
def okBody (payload : String) : String :=
  "\x7b\"status\": \"ok\", \"features\": " ++ payload ++ "\x7d"

/-- The two headers lines 96-97 set on every request before anything else
(the key `"Content-type"` is canonicalized by `Header.Set`). -/
def stdHeaders : List (String × String) :=
  headerSet (headerSet [] "Access-Control-Allow-Origin" "*") "Content-type" "application/json"

/-- Lines 104-107: the raw radius string, `"10000"` when the query
parameter is absent or empty. -/
def radiusStr (q : String → String) : String :=
  if q "radius" == "" then "10000" else q "radius"

/-- `apiSearchHandler`: headers, radius default, the emptiness check on
lat/lng (400), the call into `getGeoJSONFromDatabase` (500 on any error it
returns), and on success the `{"status": "ok", ...}` envelope written via
`fmt.Fprintf` with the envelope as the format string. `q` models
`r.URL.Query().Get`, which returns `""` for an absent parameter. -/
def apiSearchHandler (dbq : DBOracle) (q : String → String) : HttpResponse :=
  if q "lat" == "" || q "lng" == "" then
    httpError stdHeaders missingParamBody 400
  else
    match getGeoJSONFromDatabase dbq (q "lat") (q "lng") (radiusStr q) with
    | .error e => httpError stdHeaders (serverErrorBody e.message) 500
    | .ok geoJSON => { status := 200, headers := stdHeaders, body := fprintfNoArgs (okBody geoJSON) }

/-- Insert into a sorted list, keeping it sorted under `le`. -/
def insertOrdered {α : Type _} (le : α → α → Bool) (x : α) : List α → List α
  | [] => [x]
  | y :: ys => if le x y then x :: y :: ys else y :: insertOrdered le x ys

/-- `ORDER BY`: a sorted permutation of the input (insertion sort; SQL
fixes the order only up to ties). -/
def orderBy {α : Type _} (le : α → α → Bool) : List α → List α
  | [] => []
  | x :: xs => insertOrdered le x (orderBy le xs)

/-- The query's sort key: `distance_km = ST_Distance(...) / 1000`. -/
def distanceKmLE {α : Type _} (dist : α → ℚ) (a b : α) : Bool :=
  decide (dist a / 1000 ≤ dist b / 1000)

/-- The row set of the query's innermost subquery: rows whose geodesic
distance to the query point is within the radius (`ST_DWithin` on
geography compares the distance in meters against `$3`), ordered by
`distance_km`, limited to 25. `dist` gives each row's geodesic distance
in meters to the query point. -/
def spatialQueryRows {α : Type _} (dist : α → ℚ) (table : List α) (radiusMeters : Int) : List α :=
  (orderBy (distanceKmLE dist)
    (table.filter (fun r => decide (dist r ≤ (radiusMeters : ℚ))))).take 25

/-- `COALESCE(jsonb_agg(...), '[]'::jsonb)`: the aggregate is NULL over
zero rows and the query then yields the empty jsonb array. -/
def jsonbAggCoalesce (features : List String) : String :=
  match features with
  | [] => "[]"
  | fs => "[" ++ String.intercalate ", " fs ++ "]"

/-- The full single-column result of the spatial query: each selected row
rendered as a feature object (`featureJson` abstracts
`jsonb_build_object(...)`), aggregated into one jsonb array. -/
def spatialQueryAggregate {α : Type _} (dist : α → ℚ) (featureJson : α → String)
    (table : List α) (radiusMeters : Int) : String :=
  jsonbAggCoalesce ((spatialQueryRows dist table radiusMeters).map featureJson)

/-- A PostGIS database holding `table`, answering the fixed query:
`geoDist lng lat r` is the geodesic distance in meters from the `$1`/`$2`
point to row `r`'s geometry. Bind lists of any other shape are a scan
failure. -/
def postgisOracle {α : Type _} (geoDist : GoFloat → GoFloat → α → ℚ)
    (featureJson : α → String) (table : List α) : DBOracle :=
  fun _query binds =>
    match binds with
    | [.float lng, .float lat, .int rad] =>
      .row (spatialQueryAggregate (geoDist lng lat) featureJson table rad)
    | _ => .scanErr "parameter count mismatch"

/-- `initDB`: `sql.Open` then `db.Ping`, each wrapped with the source's
message on failure; the pool settings do not affect the result. -/
def initDB (openResult pingResult : Except String Unit) : Except String Unit :=
  match openResult with
  | .error e => .error ("sql.Open failed: " ++ e)
  | .ok _ =>
    match pingResult with
    | .error e => .error ("db.Ping failed: " ++ e)
    | .ok _ => .ok ()

/-- The externally visible steps of `main`, in program order. -/
inductive MainEvent where
  | fatalExit
  | handleStaticFiles
  | handleAPISearch
  | listenAndServe
deriving DecidableEq

/-- `main` as a trace: when `initDB` fails, `log.Fatalf` logs and exits
the process before any handler registration; otherwise the static file
server and `/api/search` handler are registered and the listener starts. -/
def mainTrace (openResult pingResult : Except String Unit) : List MainEvent :=
  match initDB openResult pingResult with
  | .error _ => [.fatalExit]
  | .ok _ => [.handleStaticFiles, .handleAPISearch, .listenAndServe]

/-- A database stub answering every query with the empty feature array. -/
def dbTrivial : DBOracle := fun _ _ => .row "[]"

/-- A database stub failing every scan. -/
def dbScanFail : DBOracle := fun _ _ => .scanErr "connection reset"

/-- The query parameters of a request with `lng` but no `lat`. -/
def qMissingLat : String → String := fun k => if k == "lng" then "-97.74" else ""

/-- The query parameters of `/api/search?lat=30.27&lng=-97.74&radius=abc`. -/
def qAbcRadius : String → String := fun k =>
  if k == "lat" then "30.27" else if k == "lng" then "-97.74"
  else if k == "radius" then "abc" else ""

/-- The query parameters of `/api/search?lat=30.27&lng=-97.74` (default radius). -/
def qAustin : String → String := fun k =>
  if k == "lat" then "30.27" else if k == "lng" then "-97.74" else ""

/-- The query parameters of a request with out-of-range and special-form
values: `lat=999`, `lng=Inf`, `radius=-5`. -/
def qExtreme : String → String := fun k =>
  if k == "lat" then "999" else if k == "lng" then "Inf"
  else if k == "radius" then "-5" else ""

set_option exponentiation.threshold 2000
set_option maxRecDepth 100000

theorem fprintfRender_of_no_percent (cs : List Char) (h : ∀ c ∈ cs, c ≠ '%') :
    fprintfRender none cs = cs := by
  induction cs with
  | nil => rfl
  | cons c cs ih =>
    have hc : (c == '%') = false := by
      simpa using h c (List.mem_cons_self c cs)
    simp only [fprintfRender, hc, Bool.false_eq_true, if_false]
    exact congrArg (c :: ·) (ih fun d hd => h d (List.mem_cons_of_mem c hd))

theorem fprintfNoArgs_of_no_percent (s : String) (h : hasPercent s = false) :
    fprintfNoArgs s = s := by
  have hnm : '%' ∉ s.toList := by
    simpa [hasPercent] using h
  have h' : ∀ c ∈ s.toList, c ≠ '%' := by
    intro c hc hrfl
    exact hnm (hrfl ▸ hc)
  show String.mk (fprintfRender none s.toList) = s
  rw [fprintfRender_of_no_percent _ h']
  cases s
  rfl

theorem insertOrdered_pos {α : Type _} (le : α → α → Bool) (x y : α) (ys : List α)
    (hxy : le x y = true) : insertOrdered le x (y :: ys) = x :: y :: ys := by
  simp [insertOrdered, hxy]

theorem insertOrdered_neg {α : Type _} (le : α → α → Bool) (x y : α) (ys : List α)
    (hxy : ¬ le x y = true) : insertOrdered le x (y :: ys) = y :: insertOrdered le x ys := by
  simp [insertOrdered, hxy]

theorem mem_insertOrdered {α : Type _} (le : α → α → Bool) (x a : α) (l : List α) :
    a ∈ insertOrdered le x l ↔ a = x ∨ a ∈ l := by
  induction l with
  | nil => simp [insertOrdered]
  | cons y ys ih =>
    by_cases hxy : le x y = true
    · rw [insertOrdered_pos le x y ys hxy]
      simp
    · rw [insertOrdered_neg le x y ys hxy]
      simp [ih]
      tauto

theorem mem_orderBy {α : Type _} (le : α → α → Bool) (a : α) (l : List α) :
    a ∈ orderBy le l ↔ a ∈ l := by
  induction l with
  | nil => simp [orderBy]
  | cons x xs ih =>
    show a ∈ insertOrdered le x (orderBy le xs) ↔ _
    rw [mem_insertOrdered]
    simp [ih]

theorem pairwise_insertOrdered {α : Type _} (le : α → α → Bool)
    (htot : ∀ a b, le a b || le b a) (htrans : ∀ a b c, le a b = true → le b c = true → le a c = true)
    (x : α) (l : List α) (hl : l.Pairwise (fun a b => le a b = true)) :
    (insertOrdered le x l).Pairwise (fun a b => le a b = true) := by
  induction l with
  | nil => simp [insertOrdered]
  | cons y ys ih =>
    rcases List.pairwise_cons.mp hl with ⟨hy, hys⟩
    by_cases hxy : le x y = true
    · rw [insertOrdered_pos le x y ys hxy]
      refine List.pairwise_cons.mpr ⟨?_, hl⟩
      intro b hb
      rcases List.mem_cons.mp hb with hb | hb
      · exact hb ▸ hxy
      · exact htrans x y b hxy (hy b hb)
    · rw [insertOrdered_neg le x y ys hxy]
      refine List.pairwise_cons.mpr ⟨?_, ih hys⟩
      intro b hb
      rcases (mem_insertOrdered le x b ys).mp hb with hb | hb
      · subst hb
        have hor := htot b y
        rw [Bool.or_eq_true] at hor
        rcases hor with hor | hor
        · exact absurd hor hxy
        · exact hor
      · exact hy b hb

theorem pairwise_orderBy {α : Type _} (le : α → α → Bool)
    (htot : ∀ a b, le a b || le b a) (htrans : ∀ a b c, le a b = true → le b c = true → le a c = true)
    (l : List α) : (orderBy le l).Pairwise (fun a b => le a b = true) := by
  induction l with
  | nil => simp [orderBy]
  | cons y ys ih =>
    show (insertOrdered le y (orderBy le ys)).Pairwise _
    exact pairwise_insertOrdered le htot htrans y _ ih

theorem apiSearchHandler_missing {dbq : DBOracle} {q : String → String}
    (h : q "lat" = "" ∨ q "lng" = "") :
    apiSearchHandler dbq q = httpError stdHeaders missingParamBody 400 := by
  rcases h with h | h <;> simp [apiSearchHandler, h]

theorem apiSearchHandler_error {dbq : DBOracle} {q : String → String} {e : QueryError}
    (hlat : q "lat" ≠ "") (hlng : q "lng" ≠ "")
    (h : getGeoJSONFromDatabase dbq (q "lat") (q "lng") (radiusStr q) = .error e) :
    apiSearchHandler dbq q = httpError stdHeaders (serverErrorBody e.message) 500 := by
  have h1 : (q "lat" == "") = false := by simpa using hlat
  have h2 : (q "lng" == "") = false := by simpa using hlng
  simp [apiSearchHandler, h1, h2, h]

theorem apiSearchHandler_ok {dbq : DBOracle} {q : String → String} {payload : String}
    (hlat : q "lat" ≠ "") (hlng : q "lng" ≠ "")
    (h : getGeoJSONFromDatabase dbq (q "lat") (q "lng") (radiusStr q) = .ok payload) :
    apiSearchHandler dbq q = ⟨200, stdHeaders, fprintfNoArgs (okBody payload)⟩ := by
  have h1 : (q "lat" == "") = false := by simpa using hlat
  have h2 : (q "lng" == "") = false := by simpa using hlng
  simp [apiSearchHandler, h1, h2, h]

theorem parseSearchParams_ok {latS lngS radS : String} {latV lngV : GoFloat} {radV : Int}
    (h1 : goParseFloat latS = .ok latV) (h2 : goParseFloat lngS = .ok lngV)
    (h3 : goAtoi radS = .ok radV) :
    parseSearchParams latS lngS radS = .ok (latV, lngV, radV) := by
  simp [parseSearchParams, h1, h2, h3]

theorem parseSearchParams_radiusErr {latS lngS radS : String} {latV lngV : GoFloat} {e : ParseErr}
    (h1 : goParseFloat latS = .ok latV) (h2 : goParseFloat lngS = .ok lngV)
    (h3 : goAtoi radS = .error e) :
    parseSearchParams latS lngS radS = .error (.invalidRadius radS e) := by
  simp [parseSearchParams, h1, h2, h3]

theorem getGeoJSON_parseErr {dbq : DBOracle} {latS lngS radS : String} {e : QueryError}
    (hp : parseSearchParams latS lngS radS = .error e) :
    getGeoJSONFromDatabase dbq latS lngS radS = .error e := by
  simp [getGeoJSONFromDatabase, hp]

theorem getGeoJSON_row {dbq : DBOracle} {latS lngS radS : String}
    {latV lngV : GoFloat} {radV : Int} {payload : String}
    (hp : parseSearchParams latS lngS radS = .ok (latV, lngV, radV))
    (hdb : dbq queryStr [.float lngV, .float latV, .int radV] = .row payload) :
    getGeoJSONFromDatabase dbq latS lngS radS = .ok payload := by
  simp [getGeoJSONFromDatabase, hp, hdb]

theorem getGeoJSON_noRows {dbq : DBOracle} {latS lngS radS : String}
    {latV lngV : GoFloat} {radV : Int}
    (hp : parseSearchParams latS lngS radS = .ok (latV, lngV, radV))
    (hdb : dbq queryStr [.float lngV, .float latV, .int radV] = .errNoRows) :
    getGeoJSONFromDatabase dbq latS lngS radS = .ok "[]" := by
  simp [getGeoJSONFromDatabase, hp, hdb]

theorem getGeoJSON_scanErr {dbq : DBOracle} {latS lngS radS : String}
    {latV lngV : GoFloat} {radV : Int} {m : String}
    (hp : parseSearchParams latS lngS radS = .ok (latV, lngV, radV))
    (hdb : dbq queryStr [.float lngV, .float latV, .int radV] = .scanErr m) :
    getGeoJSONFromDatabase dbq latS lngS radS = .error (.scanError m) := by
  simp [getGeoJSONFromDatabase, hp, hdb]

/-- C8: when the lat or the lng query parameter is missing (the handler
sees the empty string either way), the response is HTTP 400 with a
non-empty body that names the offending parameter, whatever the other
parameters hold. -/
theorem missingLatLng400NamesParameter (dbq : DBOracle) (q : String → String)
    (h : q "lat" = "" ∨ q "lng" = "") :
    (apiSearchHandler dbq q).status = 400 ∧
    (apiSearchHandler dbq q).body ≠ "" ∧
    (q "lat" = "" → "latitude".toList <:+: (apiSearchHandler dbq q).body.toList) ∧
    (q "lng" = "" → "longitude".toList <:+: (apiSearchHandler dbq q).body.toList) := by
  rw [apiSearchHandler_missing h]
  refine ⟨rfl, by decide, fun _ => by decide, fun _ => by decide⟩

theorem missingLatLng400NamesParameter_witness :
    (apiSearchHandler dbTrivial qMissingLat).status = 400 ∧
    (apiSearchHandler dbTrivial qMissingLat).body ≠ "" ∧
    "latitude".toList <:+: (apiSearchHandler dbTrivial qMissingLat).body.toList := by
  have h := missingLatLng400NamesParameter dbTrivial qMissingLat (Or.inl rfl)
  exact ⟨h.1, h.2.1, h.2.2.1 rfl⟩

/-- C9: when `initDB` fails (the startup connectivity check), `main` logs
the cause and exits: the trace is just the fatal exit, with no handler
registration and no listener start. -/
theorem startupFailureNeverServes (openResult pingResult : Except String Unit) (e : String)
    (h : initDB openResult pingResult = .error e) :
    mainTrace openResult pingResult = [.fatalExit] ∧
    MainEvent.listenAndServe ∉ mainTrace openResult pingResult ∧
    MainEvent.handleAPISearch ∉ mainTrace openResult pingResult ∧
    MainEvent.handleStaticFiles ∉ mainTrace openResult pingResult := by
  have ht : mainTrace openResult pingResult = [.fatalExit] := by
    simp [mainTrace, h]
  rw [ht]
  exact ⟨rfl, by decide, by decide, by decide⟩

theorem startupFailureNeverServes_witness :
    mainTrace (.ok ()) (.error "connection refused") = [.fatalExit] ∧
    MainEvent.listenAndServe ∉ mainTrace (.ok ()) (.error "connection refused") ∧
    MainEvent.handleAPISearch ∉ mainTrace (.ok ()) (.error "connection refused") ∧
    MainEvent.handleStaticFiles ∉ mainTrace (.ok ()) (.error "connection refused") :=
  startupFailureNeverServes (.ok ()) (.error "connection refused")
    "db.Ping failed: connection refused" rfl

/-- C5, counterexample: on the missing-parameter 400 response the
Content-Type header is `text/plain; charset=utf-8` — `net/http`'s `Error`
overwrote the JSON content type the handler set — so the claim that every
response carries a JSON content-type header is false. -/
theorem errorContentTypeIsPlainText :
    headerGet (apiSearchHandler dbTrivial qMissingLat).headers "Content-Type" =
      some "text/plain; charset=utf-8" ∧
    headerGet (apiSearchHandler dbTrivial qMissingLat).headers "Content-Type" ≠
      some "application/json" := by
  exact ⟨rfl, by decide⟩

/-- C5, amended: every response carries the permissive
`Access-Control-Allow-Origin: *` header; the JSON content type survives
only on 200 responses, while the 400 and 500 paths go through
`http.Error`, which overwrites Content-Type with
`text/plain; charset=utf-8`. -/
theorem responseHeadersAlways (dbq : DBOracle) (q : String → String) :
    headerGet (apiSearchHandler dbq q).headers "Access-Control-Allow-Origin" = some "*" ∧
    ((apiSearchHandler dbq q).status = 200 →
      headerGet (apiSearchHandler dbq q).headers "Content-Type" = some "application/json") ∧
    ((apiSearchHandler dbq q).status ≠ 200 →
      headerGet (apiSearchHandler dbq q).headers "Content-Type" =
        some "text/plain; charset=utf-8") := by
  by_cases hmiss : q "lat" = "" ∨ q "lng" = ""
  · rw [apiSearchHandler_missing hmiss]
    exact ⟨rfl, fun h => absurd h (by decide), fun _ => rfl⟩
  · push_neg at hmiss
    cases hg : getGeoJSONFromDatabase dbq (q "lat") (q "lng") (radiusStr q) with
    | error e =>
      rw [apiSearchHandler_error hmiss.1 hmiss.2 hg]
      exact ⟨rfl, fun h => by simp [httpError] at h, fun _ => rfl⟩
    | ok payload =>
      rw [apiSearchHandler_ok hmiss.1 hmiss.2 hg]
      exact ⟨rfl, fun _ => rfl, fun h => absurd rfl h⟩

theorem responseHeadersAlways_witness :
    headerGet (apiSearchHandler dbTrivial qAustin).headers "Access-Control-Allow-Origin" =
      some "*" ∧
    headerGet (apiSearchHandler dbTrivial qAustin).headers "Content-Type" =
      some "application/json" ∧
    headerGet (apiSearchHandler dbTrivial qMissingLat).headers "Access-Control-Allow-Origin" =
      some "*" := by
  have h1 := responseHeadersAlways dbTrivial qAustin
  have h2 := responseHeadersAlways dbTrivial qMissingLat
  exact ⟨h1.1, h1.2.1 rfl, h2.1⟩

theorem hasPercent_okBody (p : String) (h : hasPercent p = false) :
    hasPercent (okBody p) = false := by
  have hp : '%' ∉ p.toList := by simpa [hasPercent] using h
  have hall : '%' ∉ (okBody p).toList := by
    simp [okBody, String.toList, String.data_append] at *
    exact hp
  simpa [hasPercent] using hall

/-- C1, counterexample: for `lat=30.27&lng=-97.74&radius=abc` the handler
responds with HTTP 500, not the claimed 400 — the radius parse failure
flows through `getGeoJSONFromDatabase`'s error return into the handler's
single 500 branch. -/
theorem radiusAbcGets500Not400 :
    (apiSearchHandler dbTrivial qAbcRadius).status = 500 ∧
    (apiSearchHandler dbTrivial qAbcRadius).status ≠ 400 := by
  have h : apiSearchHandler dbTrivial qAbcRadius =
      httpError stdHeaders
        (serverErrorBody (QueryError.invalidRadius "abc" .synErr).message) 500 :=
    apiSearchHandler_error (by decide) (by decide)
      (getGeoJSON_parseErr (parseSearchParams_radiusErr rfl rfl rfl))
  rw [h]
  exact ⟨rfl, by decide⟩

/-- C1, amended: when lat and lng are present but any of lat, lng or
radius fails to parse, the handler responds with HTTP 500 and the error
envelope — not 400, and not a silent fallback to the default: the
response does not depend on the database at all. -/
theorem parseFailureResponds500 (dbq dbq' : DBOracle) (q : String → String) (e : QueryError)
    (hlat : q "lat" ≠ "") (hlng : q "lng" ≠ "")
    (hp : parseSearchParams (q "lat") (q "lng") (radiusStr q) = .error e) :
    (apiSearchHandler dbq q).status = 500 ∧
    (apiSearchHandler dbq q).status ≠ 400 ∧
    (apiSearchHandler dbq q).body = serverErrorBody e.message ++ "\n" ∧
    apiSearchHandler dbq q = apiSearchHandler dbq' q := by
  have h1 : apiSearchHandler dbq q =
      httpError stdHeaders (serverErrorBody e.message) 500 :=
    apiSearchHandler_error hlat hlng (getGeoJSON_parseErr hp)
  have h2 : apiSearchHandler dbq' q =
      httpError stdHeaders (serverErrorBody e.message) 500 :=
    apiSearchHandler_error hlat hlng (getGeoJSON_parseErr hp)
  rw [h1, h2]
  exact ⟨rfl, by simp [httpError], rfl, rfl⟩

theorem parseFailureResponds500_witness :
    (apiSearchHandler dbTrivial qAbcRadius).status = 500 ∧
    (apiSearchHandler dbTrivial qAbcRadius).status ≠ 400 ∧
    (apiSearchHandler dbTrivial qAbcRadius).body =
      serverErrorBody (QueryError.invalidRadius "abc" .synErr).message ++ "\n" ∧
    apiSearchHandler dbTrivial qAbcRadius = apiSearchHandler dbScanFail qAbcRadius :=
  parseFailureResponds500 dbTrivial dbScanFail qAbcRadius
    (QueryError.invalidRadius "abc" .synErr) (by decide) (by decide)
    (parseSearchParams_radiusErr rfl rfl rfl)

/-- C2, counterexample: the missing-parameter 400 body is
`{"error": "..."}` with no `"status"` field at all, so it is not true
that every error body carries the status field. -/
theorem missing400BodyLacksStatus :
    (apiSearchHandler dbTrivial qMissingLat).status = 400 ∧
    ¬ ("\"status\"".toList <:+: (apiSearchHandler dbTrivial qMissingLat).body.toList) := by
  have h := @apiSearchHandler_missing dbTrivial qMissingLat (Or.inl rfl)
  rw [h]
  exact ⟨rfl, by decide⟩

/-- C2, amended: the missing-lat/lng validation failure is 400 with the
plain `{"error": ...}` body (no status field); every failure out of
`getGeoJSONFromDatabase` — parse failures included — is 500 with the
`{"status": "error", ...}` envelope; success is 200 with the
`{"status": "ok", "features": ...}` envelope written through a
format-string print, hence equal to the wrapped payload whenever the
payload contains no percent sign. `http.Error` appends a newline to the
error bodies. -/
theorem apiSearchResponseShapes (dbq : DBOracle) (q : String → String) :
    ((q "lat" = "" ∨ q "lng" = "") →
       (apiSearchHandler dbq q).status = 400 ∧
       (apiSearchHandler dbq q).body = missingParamBody ++ "\n") ∧
    (∀ e : QueryError, q "lat" ≠ "" → q "lng" ≠ "" →
       getGeoJSONFromDatabase dbq (q "lat") (q "lng") (radiusStr q) = .error e →
       (apiSearchHandler dbq q).status = 500 ∧
       (apiSearchHandler dbq q).body = serverErrorBody e.message ++ "\n") ∧
    (∀ payload : String, q "lat" ≠ "" → q "lng" ≠ "" →
       getGeoJSONFromDatabase dbq (q "lat") (q "lng") (radiusStr q) = .ok payload →
       (apiSearchHandler dbq q).status = 200 ∧
       (apiSearchHandler dbq q).body = fprintfNoArgs (okBody payload) ∧
       (hasPercent payload = false → (apiSearchHandler dbq q).body = okBody payload)) := by
  refine ⟨?_, ?_, ?_⟩
  · intro h
    rw [apiSearchHandler_missing h]
    exact ⟨rfl, rfl⟩
  · intro e h1 h2 hg
    rw [apiSearchHandler_error h1 h2 hg]
    exact ⟨rfl, rfl⟩
  · intro payload h1 h2 hg
    rw [apiSearchHandler_ok h1 h2 hg]
    refine ⟨rfl, rfl, fun hpc => ?_⟩
    exact fprintfNoArgs_of_no_percent _ (hasPercent_okBody payload hpc)

theorem apiSearchResponseShapes_witness :
    ((apiSearchHandler dbTrivial qMissingLat).status = 400 ∧
     (apiSearchHandler dbTrivial qMissingLat).body = missingParamBody ++ "\n") ∧
    ((apiSearchHandler dbScanFail qAustin).status = 500 ∧
     (apiSearchHandler dbScanFail qAustin).body =
       serverErrorBody (QueryError.scanError "connection reset").message ++ "\n") ∧
    ((apiSearchHandler dbTrivial qAustin).status = 200 ∧
     (apiSearchHandler dbTrivial qAustin).body = okBody "[]") := by
  have h1 := apiSearchResponseShapes dbTrivial qMissingLat
  have h2 := apiSearchResponseShapes dbScanFail qAustin
  have h3 := apiSearchResponseShapes dbTrivial qAustin
  have p2 := h2.2.1 (QueryError.scanError "connection reset") (by decide) (by decide) rfl
  have p3 := h3.2.2 "[]" (by decide) (by decide) rfl
  exact ⟨h1.1 (Or.inl rfl), p2, p3.1, p3.2.2 rfl⟩

/-- C7: an absent or empty radius parameter is replaced by `"10000"`,
which parses to 10000 meters; a present non-empty radius must parse with
`strconv.Atoi`, and a non-integer radius fails the whole parse — it is
rejected, not truncated. -/
theorem radiusDefaultAndIntegerOnly (q : String → String) (latV lngV : GoFloat) :
    (q "radius" = "" → radiusStr q = "10000" ∧ goAtoi (radiusStr q) = .ok 10000) ∧
    (q "radius" = "" → goParseFloat (q "lat") = .ok latV →
       goParseFloat (q "lng") = .ok lngV →
       parseSearchParams (q "lat") (q "lng") (radiusStr q) = .ok (latV, lngV, 10000)) ∧
    (∀ e : ParseErr, q "radius" ≠ "" → goAtoi (q "radius") = .error e →
       goParseFloat (q "lat") = .ok latV → goParseFloat (q "lng") = .ok lngV →
       parseSearchParams (q "lat") (q "lng") (radiusStr q) =
         .error (.invalidRadius (q "radius") e)) := by
  refine ⟨?_, ?_, ?_⟩
  · intro h
    have hr : radiusStr q = "10000" := by simp [radiusStr, h]
    exact ⟨hr, by rw [hr]; rfl⟩
  · intro h h1 h2
    have hr : radiusStr q = "10000" := by simp [radiusStr, h]
    rw [hr]
    exact parseSearchParams_ok h1 h2 rfl
  · intro e hne hg h1 h2
    have hr : radiusStr q = q "radius" := by
      have : (q "radius" == "") = false := by simpa using hne
      simp [radiusStr, this]
    rw [hr]
    exact parseSearchParams_radiusErr h1 h2 hg

theorem radiusDefaultAndIntegerOnly_witness :
    (radiusStr qAustin = "10000" ∧ goAtoi (radiusStr qAustin) = .ok 10000) ∧
    parseSearchParams (qAustin "lat") (qAustin "lng") (radiusStr qAustin) =
      .ok (.finite false 3027 (-2) (-2), .finite true 9774 (-2) (-2), 10000) ∧
    parseSearchParams (qAbcRadius "lat") (qAbcRadius "lng") (radiusStr qAbcRadius) =
      .error (.invalidRadius (qAbcRadius "radius") .synErr) := by
  have h1 := radiusDefaultAndIntegerOnly qAustin
    (.finite false 3027 (-2) (-2)) (.finite true 9774 (-2) (-2))
  have h2 := radiusDefaultAndIntegerOnly qAbcRadius
    (.finite false 3027 (-2) (-2)) (.finite true 9774 (-2) (-2))
  exact ⟨h1.1 rfl, h1.2.1 rfl rfl rfl, h2.2.2 .synErr (by decide) rfl rfl rfl⟩

/-- C10: validation applies no range or sanity check — every lat/lng
string `ParseFloat` accepts (999, Inf, NaN included) and every radius
string `Atoi` accepts (zero and negatives included) passes validation,
and the parsed values reach the database bind list unchanged. -/
theorem noRangeChecksOnParameters (latS lngS radS : String)
    (latV lngV : GoFloat) (radV : Int)
    (h1 : goParseFloat latS = .ok latV) (h2 : goParseFloat lngS = .ok lngV)
    (h3 : goAtoi radS = .ok radV) :
    parseSearchParams latS lngS radS = .ok (latV, lngV, radV) ∧
    queryCall latS lngS radS = some (queryStr, [.float lngV, .float latV, .int radV]) := by
  have hp := parseSearchParams_ok h1 h2 h3
  exact ⟨hp, by simp [queryCall, hp]⟩

theorem noRangeChecksOnParameters_witness :
    (parseSearchParams "999" "Inf" "-5" = .ok (.finite false 999 0 0, .inf false, -5) ∧
     queryCall "999" "Inf" "-5" =
       some (queryStr, [.float (.inf false), .float (.finite false 999 0 0), .int (-5)])) ∧
    (parseSearchParams "NaN" "-190.5" "0" = .ok (.nan, .finite true 1905 (-1) (-1), 0) ∧
     queryCall "NaN" "-190.5" "0" =
       some (queryStr, [.float (.finite true 1905 (-1) (-1)), .float .nan, .int 0])) :=
  ⟨noRangeChecksOnParameters "999" "Inf" "-5"
     (.finite false 999 0 0) (.inf false) (-5) rfl rfl rfl,
   noRangeChecksOnParameters "NaN" "-190.5" "0"
     .nan (.finite true 1905 (-1) (-1)) 0 rfl rfl rfl⟩

/-- C6: the query text sent to the database is the same fixed string for
every validated request — the user-supplied values appear only as the
ordered bind list longitude, latitude, radius. -/
theorem queryTextFixedAndParameterized
    (lat1 lng1 rad1 lat2 lng2 rad2 : String)
    (a1 b1 : GoFloat) (r1 : Int) (a2 b2 : GoFloat) (r2 : Int)
    (h1 : parseSearchParams lat1 lng1 rad1 = .ok (a1, b1, r1))
    (h2 : parseSearchParams lat2 lng2 rad2 = .ok (a2, b2, r2)) :
    queryCall lat1 lng1 rad1 = some (queryStr, [.float b1, .float a1, .int r1]) ∧
    (queryCall lat1 lng1 rad1).map Prod.fst = (queryCall lat2 lng2 rad2).map Prod.fst := by
  constructor
  · simp [queryCall, h1]
  · simp [queryCall, h1, h2]

theorem queryTextFixedAndParameterized_witness :
    queryCall "30.27" "-97.74" "10000" =
      some (queryStr, [.float (.finite true 9774 (-2) (-2)),
                       .float (.finite false 3027 (-2) (-2)), .int 10000]) ∧
    (queryCall "30.27" "-97.74" "10000").map Prod.fst =
      (queryCall "999" "Inf" "-5").map Prod.fst :=
  queryTextFixedAndParameterized "30.27" "-97.74" "10000" "999" "Inf" "-5"
    (.finite false 3027 (-2) (-2)) (.finite true 9774 (-2) (-2)) 10000
    (.finite false 999 0 0) (.inf false) (-5)
    (parseSearchParams_ok rfl rfl rfl) (parseSearchParams_ok rfl rfl rfl)

theorem spatialQueryRows_spec {α : Type _} (dist : α → ℚ) (table : List α) (radV : Int) :
    (∀ r ∈ spatialQueryRows dist table radV, dist r ≤ (radV : ℚ)) ∧
    (spatialQueryRows dist table radV).Pairwise (fun a b => dist a ≤ dist b) ∧
    (spatialQueryRows dist table radV).length ≤ 25 := by
  refine ⟨?_, ?_, ?_⟩
  · intro r hr
    have hr1 : r ∈ orderBy (distanceKmLE dist)
        (table.filter fun r => decide (dist r ≤ (radV : ℚ))) :=
      List.mem_of_mem_take hr
    have hr2 : r ∈ table.filter fun r => decide (dist r ≤ (radV : ℚ)) :=
      (mem_orderBy _ _ _).mp hr1
    exact of_decide_eq_true (List.mem_filter.mp hr2).2
  · have htot : ∀ a b, distanceKmLE dist a b || distanceKmLE dist b a := by
      intro a b
      simpa [distanceKmLE] using le_total (dist a / 1000) (dist b / 1000)
    have htrans : ∀ a b c, distanceKmLE dist a b = true → distanceKmLE dist b c = true →
        distanceKmLE dist a c = true := by
      intro a b c hab hbc
      simp only [distanceKmLE, decide_eq_true_eq] at *
      exact le_trans hab hbc
    have hp := pairwise_orderBy (distanceKmLE dist) htot htrans
      (table.filter fun r => decide (dist r ≤ (radV : ℚ)))
    have hp2 := List.Pairwise.sublist (List.take_sublist 25 _) hp
    refine hp2.imp ?_
    intro a b hab
    have h1000 := of_decide_eq_true hab
    have hpos : (0 : ℚ) < 1000 := by norm_num
    nlinarith [h1000]
  · have := List.length_take 25 (orderBy (distanceKmLE dist)
      (table.filter fun r => decide (dist r ≤ (radV : ℚ))))
    simp only [spatialQueryRows]
    omega

/-- C4: for any request point, the row set the spatial query produces
contains only rows within the given radius of the point, is ordered by
non-decreasing geodesic distance from it, and holds at most 25 rows. -/
theorem queryRowsWithinSortedCapped {α : Type _}
    (geoDist : GoFloat → GoFloat → α → ℚ) (lngV latV : GoFloat)
    (table : List α) (radV : Int) :
    (∀ r ∈ spatialQueryRows (geoDist lngV latV) table radV,
       geoDist lngV latV r ≤ (radV : ℚ)) ∧
    (spatialQueryRows (geoDist lngV latV) table radV).Pairwise
      (fun a b => geoDist lngV latV a ≤ geoDist lngV latV b) ∧
    (spatialQueryRows (geoDist lngV latV) table radV).length ≤ 25 :=
  spatialQueryRows_spec (geoDist lngV latV) table radV

/-- C3: a validated request that matches zero rows is a success with the
features value exactly the empty array: the query-level
`COALESCE(jsonb_agg(...), '[]')` makes the aggregate `"[]"` when no row
is within the radius, and an `sql.ErrNoRows` scan outcome is likewise
translated to `"[]"` — never null, never an error. -/
theorem emptyMatchYieldsEmptyArray {α : Type _}
    (geoDist : GoFloat → GoFloat → α → ℚ) (featureJson : α → String) (table : List α)
    (q : String → String) (latV lngV : GoFloat) (radV : Int)
    (hlat : q "lat" ≠ "") (hlng : q "lng" ≠ "")
    (h1 : goParseFloat (q "lat") = .ok latV) (h2 : goParseFloat (q "lng") = .ok lngV)
    (h3 : goAtoi (radiusStr q) = .ok radV)
    (hempty : ∀ r ∈ table, ¬ geoDist lngV latV r ≤ (radV : ℚ)) :
    apiSearchHandler (postgisOracle geoDist featureJson table) q =
      ⟨200, stdHeaders, okBody "[]"⟩ ∧
    (∀ dbq : DBOracle, dbq queryStr [.float lngV, .float latV, .int radV] = .errNoRows →
       apiSearchHandler dbq q = ⟨200, stdHeaders, okBody "[]"⟩) := by
  have hp := parseSearchParams_ok h1 h2 h3
  have hfmt : fprintfNoArgs (okBody "[]") = okBody "[]" :=
    fprintfNoArgs_of_no_percent _ (by decide)
  constructor
  · have hfilter : table.filter (fun r => decide (geoDist lngV latV r ≤ (radV : ℚ))) = [] := by
      rw [List.filter_eq_nil_iff]
      intro a ha
      simpa using hempty a ha
    have hagg : spatialQueryAggregate (geoDist lngV latV) featureJson table radV = "[]" := by
      simp [spatialQueryAggregate, spatialQueryRows, hfilter, orderBy, jsonbAggCoalesce]
    have hdb : postgisOracle geoDist featureJson table queryStr
        [.float lngV, .float latV, .int radV] = .row "[]" := by
      simp [postgisOracle, hagg]
    rw [apiSearchHandler_ok hlat hlng (getGeoJSON_row hp hdb), hfmt]
  · intro dbq hdb
    rw [apiSearchHandler_ok hlat hlng (getGeoJSON_noRows hp hdb), hfmt]

theorem emptyMatchYieldsEmptyArray_witness :
    apiSearchHandler
        (postgisOracle (fun _ _ (_ : Unit) => (0 : ℚ)) (fun _ => "feature") []) qAustin =
      ⟨200, stdHeaders, okBody "[]"⟩ ∧
    apiSearchHandler (fun _ _ => ScanOutcome.errNoRows) qAustin =
      ⟨200, stdHeaders, okBody "[]"⟩ := by
  have h := emptyMatchYieldsEmptyArray (fun _ _ (_ : Unit) => (0 : ℚ)) (fun _ => "feature")
    ([] : List Unit) qAustin (.finite false 3027 (-2) (-2)) (.finite true 9774 (-2) (-2)) 10000
    (by decide) (by decide) rfl rfl rfl (by intro r hr; simp at hr)
  exact ⟨h.1, h.2 (fun _ _ => ScanOutcome.errNoRows) rfl⟩

end StoreLocator
